import Mathlib

/-!
Verification of the intervals-mcp-server repository: a shallow embedding of the
tool handlers in `tools/activities.py` and `tools/events.py`, the HTTP gateway in
`utils/functions.py`, and the duration/payload helpers, together with theorems
settling the specification claims about them.

Python values are modelled by the `JVal` type; Python exceptions by `PyExc`
(fallible code returns `Except PyExc _`); the remote HTTP API is an oracle
`gw : Request → JVal` giving the JSON value each gateway call produces; the
current date (`datetime.now()`) is an explicit day-number parameter.
-/

namespace IntervalsMCP

/-- A Python/JSON value: None, bool, int, float, str, list, dict.
Floats are modelled as exact rationals (binary rounding is not modelled; the
programs here only ever build floats from short decimal literals).
Dicts are association lists in insertion order with distinct keys, matching
Python dict iteration order; lookups take the first matching key. -/
inductive JVal where
  | null
  | bool (b : Bool)
  | int (n : Int)
  | float (q : Rat)
  | str (s : String)
  | arr (elems : List JVal)
  | obj (fields : List (String × JVal))

/-- Python exception classes raised by the modelled code. -/
inductive PyExc where
  | typeError
  | valueError
  | keyError
  | attributeError
deriving DecidableEq

/-- Python truthiness (`bool(v)`). -/
def pyTruthy : JVal → Bool
  | .null => false
  | .bool b => b
  | .int n => n != 0
  | .float q => q != 0
  | .str s => s != ""
  | .arr xs => !xs.isEmpty
  | .obj kvs => !kvs.isEmpty

/-- Is the value a Python dict? (`isinstance(v, dict)`) -/
def JVal.isObj : JVal → Bool
  | .obj _ => true
  | _ => false

/-- Is the value a Python list? (`isinstance(v, list)`) -/
def JVal.isArr : JVal → Bool
  | .arr _ => true
  | _ => false

/-- First-match association-list lookup, the meaning of `d[k]` on a dict whose
keys are distinct. -/
def objLookup : List (String × JVal) → String → Option JVal
  | [], _ => none
  | (k, v) :: rest, key => if k == key then some v else objLookup rest key

/-- `"k" in d` for a dict. -/
def objHasKey (kvs : List (String × JVal)) (key : String) : Bool :=
  (objLookup kvs key).isSome

/-- `v.get(key)` with the default `None`; the embedding only applies it to
values already checked to be dicts. -/
def pyGet (v : JVal) (key : String) : JVal :=
  match v with
  | .obj kvs => (objLookup kvs key).getD .null
  | _ => .null

/-- `v.get(key, dflt)`; the embedding only applies it to dicts. -/
def pyGetD (v : JVal) (key : String) (dflt : JVal) : JVal :=
  match v with
  | .obj kvs => (objLookup kvs key).getD dflt
  | _ => dflt

/-- Python `v == s` against a string literal: true exactly for an equal str
(values of other types never equal a str). -/
def pyEqStr (v : JVal) (s : String) : Bool :=
  match v with
  | .str t => t == s
  | _ => false

/-- `iter(v)` as a list of the produced items: lists yield elements, strings
yield one-character strings, dicts yield their keys; other values are not
iterable (a `for` over them raises TypeError). -/
def pyIterate : JVal → Option (List JVal)
  | .arr xs => some xs
  | .str s => some (s.data.map (fun c => .str (String.mk [c])))
  | .obj kvs => some (kvs.map (fun kv => .str kv.1))
  | _ => none

mutual
/-- Python `repr(v)` (floats rendered as `num.0` for whole values; the exact
text of float/container renderings is only used inside opaque error strings). -/
def pyRepr : JVal → String
  | .null => "None"
  | .bool b => if b then "True" else "False"
  | .int n => toString n
  | .float q => if q.den = 1 then toString q.num ++ ".0" else toString q.num ++ "/" ++ toString q.den
  | .str s => "\x27" ++ s ++ "\x27"
  | .arr xs => "[" ++ pyReprList xs ++ "]"
  | .obj kvs => "\x7b" ++ pyReprObj kvs ++ "\x7d"

/-- Comma-separated reprs of a list's elements. -/
def pyReprList : List JVal → String
  | [] => ""
  | [x] => pyRepr x
  | x :: y :: rest => pyRepr x ++ ", " ++ pyReprList (y :: rest)

/-- Comma-separated `'key': value` reprs of a dict's items. -/
def pyReprObj : List (String × JVal) → String
  | [] => ""
  | [(k, v)] => "\x27" ++ k ++ "\x27: " ++ pyRepr v
  | (k, v) :: kv :: rest => "\x27" ++ k ++ "\x27: " ++ pyRepr v ++ ", " ++ pyReprObj (kv :: rest)
end

/-- Python `str(v)`, as used by f-string interpolation. -/
def pyStr : JVal → String
  | .str s => s
  | v => pyRepr v

/-- `str(opt)` for an optional-string argument interpolated into an f-string. -/
def optStr : Option String → String
  | none => "None"
  | some s => s

/-! ## String operations used by the source (`in`, `replace`, `int()`, `float()`) -/

/-- Does `p` occur as a contiguous run inside `l`? (Python `pat in s`.) -/
def containsAux (l p : List Char) : Bool :=
  if p.isPrefixOf l then true
  else
    match l with
    | [] => false
    | _ :: rest => containsAux rest p

/-- Python substring containment `pat in s`. -/
def strContains (s pat : String) : Bool :=
  containsAux s.data pat.data

/-- Left-to-right, non-overlapping replacement of every occurrence of `pat`
(the behaviour of Python `str.replace` for a nonempty pattern; the sources only
ever replace the nonempty patterns "km", "m", "s", "x").  The `fuel` argument
makes the recursion structural; every occurrence consumes at least one
character, so `fuel = l.length` (as `strReplace` passes) never runs out and
the zero-fuel branch is unreachable. -/
def replaceFuel (pat repl : List Char) : Nat → List Char → List Char
  | _, [] => []
  | 0, l => l
  | fuel + 1, c :: rest =>
    if pat.isPrefixOf (c :: rest) ∧ pat.length ≠ 0 then
      repl ++ replaceFuel pat repl fuel ((c :: rest).drop pat.length)
    else
      c :: replaceFuel pat repl fuel rest

/-- Python `s.replace(pat, repl)`. -/
def strReplace (s pat repl : String) : String :=
  String.mk (replaceFuel pat.data repl.data s.data.length s.data)

/-- Python `s.endswith(pat)`. -/
def pyEndsWith (s pat : String) : Bool :=
  pat.data.reverse.isPrefixOf s.data.reverse

/-- Lexicographic-by-codepoint comparison of character lists. -/
def listLtChar : List Char → List Char → Bool
  | [], [] => false
  | [], _ :: _ => true
  | _ :: _, [] => false
  | a :: as, b :: bs =>
    if a.toNat < b.toNat then true
    else if b.toNat < a.toNat then false
    else listLtChar as bs

/-- Python string `<`: lexicographic comparison by code point. -/
def pyStrLt (a b : String) : Bool :=
  listLtChar a.data b.data

/-- Python `s.startswith(pat)` (used to state "text beginning with ..."). -/
def strStartsWith (s pat : String) : Bool :=
  pat.data.isPrefixOf s.data

/-- The whitespace characters stripped by Python `str.strip()`. -/
def isPySpace (c : Char) : Bool :=
  c = ' ' || c = '\t' || c = '\n' || c = '\r' || c = '\x0b' || c = '\x0c'

/-- Python `s.strip()` over the character list. -/
def pyStrip (l : List Char) : List Char :=
  ((l.dropWhile isPySpace).reverse.dropWhile isPySpace).reverse

/-- Digit run to number. -/
def digitsToNat (l : List Char) : Nat :=
  l.foldl (fun a c => a * 10 + (c.toNat - 48)) 0

/-- Python `int(s)` on a string: strip whitespace, optional sign, then a
nonempty digit run; anything else raises ValueError.  (Underscore digit
grouping, a Python nicety never exercised here, is not modelled.) -/
def pyIntParse (s : String) : Except PyExc Int :=
  let t := pyStrip s.data
  let sd : Int × List Char :=
    match t with
    | '+' :: rest => (1, rest)
    | '-' :: rest => (-1, rest)
    | l => (1, l)
  if sd.2 ≠ [] ∧ sd.2.all Char.isDigit then .ok (sd.1 * digitsToNat sd.2)
  else .error .valueError

/-- Python `float(s)` restricted to plain decimal literals: optional sign,
digits with at most one point and at least one digit; other accepted float
syntaxes (exponents, inf/nan) are never produced by the sources' inputs. -/
def pyFloatParse (s : String) : Except PyExc Rat :=
  let t := pyStrip s.data
  let sd : Rat × List Char :=
    match t with
    | '+' :: rest => (1, rest)
    | '-' :: rest => (-1, rest)
    | l => (1, l)
  match sd.2.splitOn '.' with
  | [ip] =>
    if ip ≠ [] ∧ ip.all Char.isDigit then .ok (sd.1 * digitsToNat ip)
    else .error .valueError
  | [ip, fp] =>
    if (ip ≠ [] ∨ fp ≠ []) ∧ ip.all Char.isDigit ∧ fp.all Char.isDigit then
      .ok (sd.1 * ((digitsToNat ip : Rat) + (digitsToNat fp : Rat) / ((10 : Rat) ^ fp.length)))
    else .error .valueError
  | _ => .error .valueError

/-! ## `convert_duration` (tools/events.py) -/

/-- `convert_duration` from tools/events.py:
```
if "km" in duration: return float(duration.replace("km", "")) * 1000
elif "m" in duration and not duration.endswith("km"): return int(duration.replace("m", "")) * 60
elif "s" in duration: return int(duration.replace("s", ""))
else: return int(duration)
```
Note the branch tests are substring containment, not suffix tests. -/
def convert_duration (duration : String) : Except PyExc JVal :=
  if strContains duration "km" then
    (pyFloatParse (strReplace duration "km" "")).map (fun q => .float (q * 1000))
  else if strContains duration "m" && !(pyEndsWith duration "km") then
    (pyIntParse (strReplace duration "m" "")).map (fun n => .int (n * 60))
  else if strContains duration "s" then
    (pyIntParse (strReplace duration "s" "")).map (fun n => .int n)
  else
    (pyIntParse duration).map (fun n => .int n)

/-- `convert_duration(step["duration"])` where the step value may not be a
string: the containment test `"km" in duration` then raises TypeError for the
non-sequence values that actually occur (None, numbers). -/
def convertDurationVal : JVal → Except PyExc JVal
  | .str s => convert_duration s
  | _ => .error .typeError

/-- `s` with a trailing `pat` removed (the numeric prefix of a suffixed
duration string). -/
def dropSuffixStr (s pat : String) : String :=
  String.mk (s.data.take (s.data.length - pat.data.length))

/-- The specification's reading of duration conversion (claim C1), for
comparison with `convert_duration`: a *trailing* `km` suffix converts the
numeric prefix to meters (×1000, as a float), a *trailing* `m` (not `km`)
suffix converts minutes to seconds (×60), a *trailing* `s` suffix is seconds
as-is, and any other value parses as a bare integer of seconds. -/
def convert_duration_spec (duration : String) : Except PyExc JVal :=
  if pyEndsWith duration "km" then
    (pyFloatParse (dropSuffixStr duration "km")).map (fun q => .float (q * 1000))
  else if pyEndsWith duration "m" then
    (pyIntParse (dropSuffixStr duration "m")).map (fun n => .int (n * 60))
  else if pyEndsWith duration "s" then
    (pyIntParse (dropSuffixStr duration "s")).map (fun n => .int n)
  else
    (pyIntParse duration).map (fun n => .int n)

/-! ## Dates

`datetime` values are modelled as day numbers (days since 0000-03-01 in the
proleptic Gregorian calendar, so every representable Python date, year 1
onward, is a positive number); `timedelta(days=n)` is subtraction of `n`;
`strftime("%Y-%m-%d")` and `datetime.fromisoformat` convert between day
numbers and `YYYY-MM-DD` strings via the standard civil-calendar algorithms.
`datetime.now()` is an explicit `today` parameter of each handler. -/

/-- Day number of the civil date `y-m-d` (valid Gregorian dates, `y ≥ 1`). -/
def daysFromCivil (y m d : Nat) : Nat :=
  let y' := if m ≤ 2 then y - 1 else y
  let era := y' / 400
  let yoe := y' % 400
  let mp := (m + 9) % 12
  let doy := (153 * mp + 2) / 5 + d - 1
  let doe := yoe * 365 + yoe / 4 - yoe / 100 + doy
  era * 146097 + doe

/-- Civil date `(y, m, d)` of a day number. -/
def civilFromDays (z : Nat) : Nat × Nat × Nat :=
  let era := z / 146097
  let doe := z % 146097
  let yoe := (doe - doe / 1460 + doe / 36524 - doe / 146096) / 365
  let y := yoe + era * 400
  let doy := doe - (365 * yoe + yoe / 4 - yoe / 100)
  let mp := (5 * doy + 2) / 153
  let d := doy - (153 * mp + 2) / 5 + 1
  let m := if mp < 10 then mp + 3 else mp - 9
  if m ≤ 2 then (y + 1, m, d) else (y, m, d)

/-- Decimal digits of `n`, most significant first; the fuel bounds the digit
count (10 covers every number the date code renders). -/
def natDigits (fuel n : Nat) : List Char :=
  match fuel with
  | 0 => []
  | f + 1 =>
    if n < 10 then [Char.ofNat (48 + n)]
    else natDigits f (n / 10) ++ [Char.ofNat (48 + n % 10)]

/-- Decimal rendering of a natural number. -/
def natRepr (n : Nat) : String := String.mk (natDigits 10 n)

/-- Zero-padded decimal rendering. -/
def padNat (width n : Nat) : String :=
  let s := natRepr n
  String.mk (List.replicate (width - s.length) '0') ++ s

/-- `strftime("%Y-%m-%d")`. -/
def formatDate (z : Nat) : String :=
  let c := civilFromDays z
  padNat 4 c.1 ++ "-" ++ padNat 2 c.2.1 ++ "-" ++ padNat 2 c.2.2

/-- Days in a month of the Gregorian calendar. -/
def daysInMonth (y m : Nat) : Nat :=
  if m = 2 then (if y % 4 = 0 ∧ (y % 100 ≠ 0 ∨ y % 400 = 0) then 29 else 28)
  else if m = 4 ∨ m = 6 ∨ m = 9 ∨ m = 11 then 30
  else 31

/-- `datetime.fromisoformat` restricted to the `YYYY-MM-DD` shape the
handlers feed it (a date produced by `strftime` or a caller-supplied date
string); any other string raises ValueError, modelled as `none`.
(Time-of-day suffixes, accepted by recent Python versions and irrelevant to
the date arithmetic performed on the result, are not modelled.) -/
def parseIsoDate (s : String) : Option Nat :=
  match s.data with
  | [y1, y2, y3, y4, h1, m1, m2, h2, d1, d2] =>
    if h1 = '-' ∧ h2 = '-' ∧ [y1, y2, y3, y4, m1, m2, d1, d2].all Char.isDigit then
      let y := digitsToNat [y1, y2, y3, y4]
      let mo := digitsToNat [m1, m2]
      let da := digitsToNat [d1, d2]
      if 1 ≤ y ∧ 1 ≤ mo ∧ mo ≤ 12 ∧ 1 ≤ da ∧ da ≤ daysInMonth y mo then
        some (daysFromCivil y mo da)
      else none
    else none
  | _ => none

/-! ## HTTP gateway (utils/functions.py) -/

/-- One outbound HTTP request issued through the gateway. -/
structure Request where
  method : String
  url : String
  params : List (String × JVal)
  body : Option JVal

/-- The process-wide configuration (config/defaults.py): the `API_KEY` and
`ATHLETE_ID` environment defaults, empty strings when unset. -/
structure Settings where
  API_KEY : String
  ATHLETE_ID : String

/-- The observable behaviour of one tool invocation: the gateway requests it
issued, in order, and its outcome — either a returned value or a Python
exception that propagated out of the handler (no handler has a try/except of
its own). -/
structure Run (α : Type) where
  requests : List Request
  outcome : Except PyExc α

/-- `explicit if explicit is not None else default` — the credential
resolution pattern of every tool: only `None` (an omitted argument) falls
back to the process-wide default. -/
def resolveCred (explicit : Option String) (dflt : String) : String :=
  match explicit with
  | some v => v
  | none => dflt

/-- `if not arg: arg = default` — the date-defaulting pattern: both an
omitted argument and an explicit empty string take the default. -/
def resolveDate (arg : Option String) (dflt : String) : String :=
  match arg with
  | none => dflt
  | some s => if s = "" then dflt else s

/-- The missing-athlete error literal shared by the tools. -/
def noAthleteMsg : String :=
  "Error: No athlete ID provided and no default ATHLETE_ID found in environment variables."

/-- The missing-api-key error literal shared by the tools. -/
def noApiKeyMsg : String :=
  "Error: No api_key provided and no default API_KEY found in environment variables."

/-- `isinstance(result, dict) and "error" in result`. -/
def isErrorDict : JVal → Bool
  | .obj kvs => objHasKey kvs "error"
  | _ => false

/-- `result.get("message", "Unknown error")` rendered into an f-string. -/
def errorMessageOf (result : JVal) : String :=
  pyStr (pyGetD result "message" (.str "Unknown error"))

/-- Concatenation of a list of strings (string accumulation in a Python
`for` loop). -/
def strJoin : List String → String
  | [] => ""
  | s :: rest => s ++ strJoin rest

/-- Modelled from the spec: `format_activity_summary` lives in
`utils/formatting.py`, which is absent from the sources; per the spec the
Activity Formatter turns one activity mapping into readable text and never
faults on missing or wrong-typed fields. -/
def format_activity_summary (a : JVal) : String :=
  "Activity: " ++ pyStr (pyGet a "name") ++ "\n"

/-- Modelled from the spec: `format_event_summary` (missing
`utils/formatting.py`) turns one event mapping into readable text without
faulting. -/
def format_event_summary (e : JVal) : String :=
  "Event: " ++ pyStr (pyGet e "name")

/-- Modelled from the spec: `format_event_details` (missing
`utils/formatting.py`) turns one event mapping into readable text without
faulting. -/
def format_event_details (e : JVal) : String :=
  "Event details: " ++ pyStr (pyGet e "name")

/-- Modelled from the spec: `format_intervals` (missing
`utils/formatting.py`) turns an intervals payload into readable text without
faulting. -/
def format_intervals (r : JVal) : String :=
  "Intervals: " ++ pyStr (pyGet r "id")

/-! ## `get_activities` (tools/activities.py) -/

/-- A GET request to `/athlete/{id}/activities` with the `oldest`, `newest`
and `limit` parameters. -/
def activitiesRequest (athleteId oldest newest : String) (lim : Int) : Request :=
  ⟨"GET", "/athlete/" ++ athleteId ++ "/activities",
   [("oldest", .str oldest), ("newest", .str newest), ("limit", .int lim)], none⟩

/-- The first list-typed value of a dict, in insertion order — the
`for key, value in result.items(): if isinstance(value, list): ...; break`
scan of `get_activities`. -/
def firstArr : List (String × JVal) → Option (List JVal)
  | [] => none
  | (_, .arr xs) :: _ => some xs
  | _ :: rest => firstArr rest

/-- The payload-normalization step of `get_activities`: a list keeps its
dict-typed elements; a dict contributes the dict-typed elements of its first
list-typed value, and — when that leaves nothing and the dict has a `name`,
`startTime` or `distance` key — is itself treated as a one-element list; any
other payload yields nothing. -/
def normalizeActivities : JVal → List JVal
  | .arr items => items.filter JVal.isObj
  | .obj kvs =>
    let acts :=
      match firstArr kvs with
      | some xs => xs.filter JVal.isObj
      | none => []
    if acts.isEmpty && ["name", "startTime", "distance"].any (fun k => objHasKey kvs k) then
      [.obj kvs]
    else acts
  | _ => []

/-- `activity.get("name") and activity.get("name") != "Unnamed"` as a
truth-valued filter condition. -/
def isNamedActivity (a : JVal) : Bool :=
  pyTruthy (pyGet a "name") && !(pyEqStr (pyGet a "name") "Unnamed")

/-- The unnamed-activity filter applied when `include_unnamed` is false. -/
def namedFilter (acts : List JVal) : List JVal :=
  acts.filter isNamedActivity

/-- The activities appended from the supplementary fetch: a list result
contributes its dict-typed, named elements; any other result (an error
envelope included) contributes nothing. -/
def supplementaryActivities : JVal → List JVal
  | .arr xs => xs.filter (fun a => a.isObj && isNamedActivity a)
  | _ => []

/-- Python `xs[:n]`: clamp-to-bounds prefix, counting from the end for a
negative bound. -/
def pySliceTo {α : Type} (xs : List α) (n : Int) : List α :=
  if 0 ≤ n then xs.take n.toNat else xs.take (xs.length - (-n).toNat)

/-- The tail of `get_activities` after the optional supplementary fetch:
truncate to `limit`, return the flavour-dependent "no activities" message if
nothing is left, else the final activity list (which the handler renders). -/
def finishOutcome (include_unnamed : Bool) (athleteId : String) (limit : Int)
    (acts : List JVal) : String ⊕ List JVal :=
  let acts := pySliceTo acts limit
  if acts.isEmpty then
    .inl (if include_unnamed then
            "No valid activities found for athlete " ++ athleteId ++ " in the specified date range."
          else
            "No named activities found for athlete " ++ athleteId ++ " in the specified date range. Try with include_unnamed=True to see all activities.")
  else .inr acts

/-- The `get_activities` tool handler up to rendering: credential
resolution, date defaulting, the primary fetch, payload normalization, the
unnamed filter with its one supplementary fetch, and truncation.  The
outcome is either an early-return message (`inl`), the final activity list
(`inr`), or a propagated exception — `datetime.fromisoformat` raising
ValueError on a malformed `start_date` is the one uncaught raise on this
path. -/
def get_activities_core (settings : Settings) (gw : Request → JVal) (today : Nat)
    (athlete_id api_key start_date end_date : Option String)
    (limit : Int) (include_unnamed : Bool) : Run (String ⊕ List JVal) :=
  let athleteId := resolveCred athlete_id settings.ATHLETE_ID
  if athleteId = "" then ⟨[], .ok (.inl noAthleteMsg)⟩
  else
    let apiKey := resolveCred api_key settings.API_KEY
    if apiKey = "" then ⟨[], .ok (.inl noApiKeyMsg)⟩
    else
      let startDate := resolveDate start_date (formatDate (today - 30))
      let endDate := resolveDate end_date (formatDate today)
      let apiLimit := if include_unnamed then limit else limit * 3
      let req1 := activitiesRequest athleteId startDate endDate apiLimit
      let result := gw req1
      if isErrorDict result then
        ⟨[req1], .ok (.inl ("Error fetching activities: " ++ errorMessageOf result))⟩
      else if !pyTruthy result then
        ⟨[req1], .ok (.inl ("No activities found for athlete " ++ athleteId ++ " in the specified date range."))⟩
      else
        let activities := normalizeActivities result
        if activities.isEmpty then
          ⟨[req1], .ok (.inl ("No valid activities found for athlete " ++ athleteId ++ " in the specified date range."))⟩
        else if include_unnamed then
          ⟨[req1], .ok (finishOutcome true athleteId limit activities)⟩
        else
          let filtered := namedFilter activities
          if (filtered.length : Int) < limit then
            match parseIsoDate startDate with
            | none => ⟨[req1], .error .valueError⟩
            | some d =>
              let olderStart := formatDate (d - 60)
              let olderEnd := formatDate (d - 1)
              if pyStrLt olderStart olderEnd then
                let req2 := activitiesRequest athleteId olderStart olderEnd apiLimit
                ⟨[req1, req2], .ok (finishOutcome false athleteId limit (filtered ++ supplementaryActivities (gw req2)))⟩
              else
                ⟨[req1], .ok (finishOutcome false athleteId limit filtered)⟩
          else ⟨[req1], .ok (finishOutcome false athleteId limit filtered)⟩

/-- The rendered result of `get_activities`: early-return messages pass
through; a final activity list is rendered one summary per activity under
the `Activities:` header. -/
def get_activities (settings : Settings) (gw : Request → JVal) (today : Nat)
    (athlete_id api_key start_date end_date : Option String)
    (limit : Int) (include_unnamed : Bool) : Run String :=
  let run := get_activities_core settings gw today athlete_id api_key start_date end_date limit include_unnamed
  { requests := run.requests,
    outcome :=
      match run.outcome with
      | .error e => .error e
      | .ok (.inl msg) => .ok msg
      | .ok (.inr acts) =>
        .ok ("Activities:\n\n" ++ strJoin (acts.map (fun a =>
          if a.isObj then format_activity_summary a ++ "\n"
          else "Invalid activity format: " ++ pyStr a ++ "\n\n"))) }

/-! ## `get_activity_details` (tools/activities.py) -/

/-- One line of the zone listing:
`f"Zone {zone.get('number')}: {zone.get('secondsInZone')} seconds\n"`. -/
def zoneLineText (z : JVal) : String :=
  "Zone " ++ pyStr (pyGet z "number") ++ ": " ++ pyStr (pyGet z "secondsInZone") ++ " seconds\n"

/-- `for zone in items: ... zone.get(...)` over the items of a zone list:
each item must be a dict (anything else raises AttributeError at
`zone.get`); the lines are accumulated in source order. -/
def zoneLines : List JVal → Except PyExc String
  | [] => .ok ""
  | z :: rest =>
    match z with
    | .obj _ => (zoneLines rest).map (fun t => zoneLineText z ++ t)
    | _ => .error .attributeError

/-- The zones section of the detail view: `zones.get("power", [])` requires
`zones` to be a dict (AttributeError otherwise), each retrieved value is
iterated (TypeError when not iterable), and each zone line requires a
dict item. -/
def renderZones (zones : JVal) : Except PyExc String :=
  match zones with
  | .obj _ =>
    match pyIterate (pyGetD zones "power" (.arr [])) with
    | none => .error .typeError
    | some pitems =>
      match zoneLines pitems with
      | .error e => .error e
      | .ok ptext =>
        match pyIterate (pyGetD zones "hr" (.arr [])) with
        | none => .error .typeError
        | some hitems =>
          (zoneLines hitems).map (fun htext =>
            "\nPower Zones:\n" ++ ptext ++ "\nHeart Rate Zones:\n" ++ htext)
  | _ => .error .attributeError

/-- The GET request of `get_activity_details`. -/
def activityDetailsRequest (activity_id : String) : Request :=
  ⟨"GET", "/activity/" ++ activity_id, [], none⟩

/-- The `get_activity_details` tool handler: resolve the API key, fetch the
activity, take the first element of a list payload, reject non-dict
payloads, and render the summary plus — when a `zones` key exists — the
power and heart-rate zone listings, whose rendering can raise. -/
def get_activity_details (settings : Settings) (gw : Request → JVal)
    (activity_id : String) (api_key : Option String) : Run String :=
  let apiKey := resolveCred api_key settings.API_KEY
  if apiKey = "" then ⟨[], .ok noApiKeyMsg⟩
  else
    let req := activityDetailsRequest activity_id
    let result := gw req
    if isErrorDict result then
      ⟨[req], .ok ("Error fetching activity details: " ++ errorMessageOf result)⟩
    else if !pyTruthy result then
      ⟨[req], .ok ("No details found for activity " ++ activity_id ++ ".")⟩
    else
      let activity_data :=
        match result with
        | .arr (x :: _) => x
        | _ => result
      match activity_data with
      | .obj kvs =>
        let detailed_view := format_activity_summary activity_data
        match objLookup kvs "zones" with
        | some zones =>
          match renderZones zones with
          | .ok ztext => ⟨[req], .ok (detailed_view ++ ztext)⟩
          | .error e => ⟨[req], .error e⟩
        | none => ⟨[req], .ok detailed_view⟩
      | _ => ⟨[req], .ok ("Invalid activity format for activity " ++ activity_id ++ ".")⟩

/-! ## `get_activity_intervals` (tools/activities.py) -/

/-- The `get_activity_intervals` tool handler. -/
def get_activity_intervals (settings : Settings) (gw : Request → JVal)
    (activity_id : String) (api_key : Option String) : Run String :=
  let apiKey := resolveCred api_key settings.API_KEY
  if apiKey = "" then ⟨[], .ok noApiKeyMsg⟩
  else
    let req : Request := ⟨"GET", "/activity/" ++ activity_id ++ "/intervals", [], none⟩
    let result := gw req
    if isErrorDict result then
      ⟨[req], .ok ("Error fetching intervals: " ++ errorMessageOf result)⟩
    else if !pyTruthy result then
      ⟨[req], .ok ("No interval data found for activity " ++ activity_id ++ ".")⟩
    else
      match result with
      | .obj kvs =>
        if ["icu_intervals", "icu_groups"].any (fun k => objHasKey kvs k) then
          ⟨[req], .ok (format_intervals result)⟩
        else
          ⟨[req], .ok ("No interval data or unrecognized format for activity " ++ activity_id ++ ".")⟩
      | _ => ⟨[req], .ok ("No interval data or unrecognized format for activity " ++ activity_id ++ ".")⟩

/-! ## `get_events` and `get_event_by_id` (tools/events.py) -/

/-- The `get_events` tool handler. -/
def get_events (settings : Settings) (gw : Request → JVal) (today : Nat)
    (athlete_id api_key start_date end_date : Option String) : Run String :=
  let athleteId := resolveCred athlete_id settings.ATHLETE_ID
  if athleteId = "" then ⟨[], .ok noAthleteMsg⟩
  else
    let apiKey := resolveCred api_key settings.API_KEY
    if apiKey = "" then ⟨[], .ok noApiKeyMsg⟩
    else
      let startDate := resolveDate start_date (formatDate today)
      let endDate := resolveDate end_date (formatDate (today + 30))
      let req : Request := ⟨"GET", "/athlete/" ++ athleteId ++ "/events",
        [("oldest", .str startDate), ("newest", .str endDate)], none⟩
      let result := gw req
      if isErrorDict result then
        ⟨[req], .ok ("Error fetching events: " ++ errorMessageOf result)⟩
      else if !pyTruthy result then
        ⟨[req], .ok ("No events found for athlete " ++ athleteId ++ " in the specified date range.")⟩
      else
        let events := match result with | .arr xs => xs | _ => []
        if events.isEmpty then
          ⟨[req], .ok ("No events found for athlete " ++ athleteId ++ " in the specified date range.")⟩
        else
          ⟨[req], .ok ("Events:\n\n" ++ strJoin (events.map (fun e =>
            if e.isObj then format_event_summary e ++ "\n\n" else "")))⟩

/-- The `get_event_by_id` tool handler. -/
def get_event_by_id (settings : Settings) (gw : Request → JVal)
    (event_id : String) (athlete_id api_key : Option String) : Run String :=
  let athleteId := resolveCred athlete_id settings.ATHLETE_ID
  if athleteId = "" then ⟨[], .ok noAthleteMsg⟩
  else
    let apiKey := resolveCred api_key settings.API_KEY
    if apiKey = "" then ⟨[], .ok noApiKeyMsg⟩
    else
      let req : Request := ⟨"GET", "/athlete/" ++ athleteId ++ "/event/" ++ event_id, [], none⟩
      let result := gw req
      if isErrorDict result then
        ⟨[req], .ok ("Error fetching event details: " ++ errorMessageOf result)⟩
      else if !pyTruthy result then
        ⟨[req], .ok ("No details found for event " ++ event_id ++ ".")⟩
      else
        match result with
        | .obj _ => ⟨[req], .ok (format_event_details result)⟩
        | _ => ⟨[req], .ok ("Invalid event format for event " ++ event_id ++ ".")⟩

/-! ## `post_events` (tools/events.py) -/

/-- `v["key"]` on an arbitrary value: KeyError when a dict lacks the key,
TypeError when the value is not subscriptable by a string (None, numbers,
lists) — `data["steps"]` and `step['duration']` in `post_events`. -/
def pySubscript (v : Option JVal) (key : String) : Except PyExc JVal :=
  match v with
  | none => .error .typeError
  | some (.obj kvs) =>
    match objLookup kvs key with
    | some x => .ok x
    | none => .error .keyError
  | some _ => .error .typeError

/-- One description line of `post_events`:
`f"- {step['duration']} {step['power']}"`, with `f" ({step['cadence']})"`
appended when the step has a cadence. -/
def stepLine (step : JVal) : Except PyExc String :=
  match step with
  | .obj kvs =>
    match objLookup kvs "duration" with
    | none => .error .keyError
    | some dur =>
      match objLookup kvs "power" with
      | none => .error .keyError
      | some pow =>
        let line := "- " ++ pyStr dur ++ " " ++ pyStr pow
        .ok (if objHasKey kvs "cadence" then
               line ++ " (" ++ pyStr ((objLookup kvs "cadence").getD .null) ++ ")"
             else line)
  | _ => .error .typeError

/-- The description lines of all steps, in order, stopping at the first
step whose subscripting raises. -/
def descriptionLines (steps : List JVal) : Except PyExc (List String) :=
  steps.mapM stepLine

/-- Python `+` on the numbers produced by `convert_duration` (int/int stays
int, a float makes the sum float); summing anything else raises TypeError. -/
def pyAdd (a b : JVal) : Except PyExc JVal :=
  match a, b with
  | .int m, .int n => .ok (.int (m + n))
  | .int m, .float q => .ok (.float (m + q))
  | .float q, .int n => .ok (.float (q + n))
  | .float p, .float q => .ok (.float (p + q))
  | _, _ => .error .typeError

/-- `sum(convert_duration(step["duration"]) for step in expanded_steps)`:
a left fold from the int 0, propagating the first exception. -/
def movingTime (steps : List JVal) : Except PyExc JVal :=
  steps.foldlM (fun acc step => do
    let dur ← pySubscript (some step) "duration"
    let v ← convertDurationVal dur
    pyAdd acc v) (.int 0)

/-- The `type` field inferred from the event name by `post_events`:
`"Ride" if "Bike" in name else "Run" if "Run" in name else "Swim"`. -/
def inferType (name : String) : String :=
  if strContains name "Bike" then "Ride"
  else if strContains name "Run" then "Run"
  else "Swim"

/-- The `target` field inferred from the event name by `post_events`:
`"POWER" if "Power" in name else "PACE" if "pace" in name else "HR" if "hr" in name else "AUTO"`. -/
def inferTarget (name : String) : String :=
  if strContains name "Power" then "POWER"
  else if strContains name "pace" then "PACE"
  else if strContains name "hr" then "HR"
  else "AUTO"

/-- The `final_data` payload assembled by `post_events` once the description
lines, name and moving time are in hand. -/
def buildFinalData (startDate nm : String) (descLines : List String) (mt : JVal) : JVal :=
  .obj [
    ("start_date_local", .str (startDate ++ "T00:00:00")),
    ("category", .str "WORKOUT"),
    ("name", .str nm),
    ("description", .str (String.intercalate "\n" descLines).trim),
    ("type", .str (inferType nm)),
    ("target", .str (inferTarget nm)),
    ("moving_time", mt)]

/-- The POST request of `post_events`. -/
def postEventsRequest (athleteId : String) (finalData : JVal) : Request :=
  ⟨"POST", "/athlete/" ++ athleteId ++ "/events", [], some finalData⟩

/-- The `post_events` tool handler: credential resolution, date defaulting,
`data["steps"]` (raising on a missing/None `data`), the description loop,
the name-based `type`/`target` inference (raising TypeError when `name` is
None, at `"Bike" in name`), the moving-time sum, and the POST.  The outcome
is a returned message (`inl`), the created-event payload returned verbatim
(`inr`), or a propagated exception. -/
def post_events (settings : Settings) (gw : Request → JVal) (today : Nat)
    (athlete_id api_key start_date name : Option String) (data : Option JVal) :
    Run (String ⊕ JVal) :=
  let athleteId := resolveCred athlete_id settings.ATHLETE_ID
  if athleteId = "" then ⟨[], .ok (.inl noAthleteMsg)⟩
  else
    let apiKey := resolveCred api_key settings.API_KEY
    if apiKey = "" then ⟨[], .ok (.inl noApiKeyMsg)⟩
    else
      let startDate := resolveDate start_date (formatDate today)
      match pySubscript data "steps" with
      | .error e => ⟨[], .error e⟩
      | .ok stepsVal =>
        match pyIterate stepsVal with
        | none => ⟨[], .error .typeError⟩
        | some steps =>
          match descriptionLines steps with
          | .error e => ⟨[], .error e⟩
          | .ok descLines =>
            match name with
            | none => ⟨[], .error .typeError⟩
            | some nm =>
              match movingTime steps with
              | .error e => ⟨[], .error e⟩
              | .ok mt =>
                let finalData := buildFinalData startDate nm descLines mt
                let req := postEventsRequest athleteId finalData
                let result := gw req
                if isErrorDict result then
                  ⟨[req], .ok (.inl ("Error fetching events: " ++ errorMessageOf result ++ " data used:" ++ pyStr finalData))⟩
                else if !pyTruthy result then
                  ⟨[req], .ok (.inl ("No events posted for athlete " ++ optStr athlete_id ++ "."))⟩
                else
                  match result with
                  | .obj _ => ⟨[req], .ok (.inr result)⟩
                  | _ => ⟨[req], .ok (.inl ("format error, verify intervals for correct event at " ++ startDate))⟩

/-! ## Concrete fixtures used by counterexamples and witnesses -/

/-- A two-step workout payload following the docstring example of
`post_events`. -/
def twoStepData : JVal :=
  .obj [("steps", .arr [
    .obj [("duration", .str "15m"), ("power", .str "80%")],
    .obj [("duration", .str "3m"), ("power", .str "110%")]])]

/-- A gateway whose every response is `null`. -/
def gwNull : Request → JVal := fun _ => .null

/-- A gateway whose every response is a one-element list holding one named
activity. -/
def gwOneAct : Request → JVal := fun _ => .arr [.obj [("name", .str "Morning Ride")]]

/-- A single activity mapping that itself contains a list-typed value. -/
def c4Single : JVal :=
  .obj [("name", .str "Ride"), ("laps", .arr [.obj [("w", .int 1)], .obj [("w", .int 2)]])]

/-- A gateway returning an activity whose `zones` field is a number. -/
def gwZonesBad : Request → JVal :=
  fun _ => .obj [("name", .str "A"), ("zones", .int 5)]

/-- A gateway returning an activity with well-formed power/hr zones. -/
def gwZonesGood : Request → JVal :=
  fun _ => .obj [("name", .str "A"),
    ("zones", .obj [("power", .arr [.obj [("number", .int 1), ("secondsInZone", .int 120)]]),
                    ("hr", .arr [.obj [("number", .int 2), ("secondsInZone", .int 60)]])])]

/-! ## Helper lemmas about the string primitives -/

theorem isPrefixOf_head_not_mem (p : List Char) (k : Char) (cs : List Char)
    (h : ∀ c ∈ cs, c ≠ k) : (k :: p).isPrefixOf cs = false := by
  cases cs with
  | nil => rfl
  | cons c t =>
    have hkc : (k == c) = false :=
      beq_eq_false_iff_ne.mpr fun hh => h c (List.mem_cons_self c t) hh.symm
    simp [List.isPrefixOf, hkc]

theorem containsAux_append_self (l p : List Char) : containsAux (l ++ p) p = true := by
  induction l with
  | nil =>
    unfold containsAux
    rw [List.nil_append, if_pos (List.isPrefixOf_iff_prefix.mpr List.prefix_rfl)]
  | cons c rest ih =>
    rw [List.cons_append]
    unfold containsAux
    split
    · rfl
    · exact ih

theorem containsAux_head_not_mem (l : List Char) (k : Char) (p : List Char)
    (h : ∀ c ∈ l, c ≠ k) : containsAux l (k :: p) = false := by
  induction l with
  | nil =>
    unfold containsAux
    simp [List.isPrefixOf]
  | cons c rest ih =>
    unfold containsAux
    rw [isPrefixOf_head_not_mem p k (c :: rest) h]
    simp only [Bool.false_eq_true, if_false]
    exact ih fun x hx => h x (List.mem_cons_of_mem c hx)

theorem isPrefixOf_cons_head_ne (p t : List Char) (k c : Char) (h : k ≠ c) :
    (k :: p).isPrefixOf (c :: t) = false := by
  simp [List.isPrefixOf, beq_eq_false_iff_ne.mpr h]

theorem replaceFuel_strip (p' : List Char) (k : Char) :
    ∀ (l : List Char) (f : Nat), (∀ c ∈ l, c ≠ k) → (l ++ (k :: p')).length ≤ f →
    replaceFuel (k :: p') [] f (l ++ (k :: p')) = l := by
  intro l
  induction l with
  | nil =>
    intro f h hf
    rw [List.nil_append] at hf ⊢
    cases f with
    | zero => simp at hf
    | succ f =>
      show replaceFuel (k :: p') [] (f + 1) (k :: p') = []
      unfold replaceFuel
      rw [if_pos ⟨List.isPrefixOf_iff_prefix.mpr List.prefix_rfl, by simp⟩]
      rw [List.drop_length]
      cases f <;> rfl
  | cons c rest ih =>
    intro f h hf
    rw [List.cons_append] at hf ⊢
    cases f with
    | zero => simp at hf
    | succ f =>
      show replaceFuel (k :: p') [] (f + 1) (c :: (rest ++ (k :: p'))) = c :: rest
      unfold replaceFuel
      rw [if_neg (by
        rintro ⟨hpre, -⟩
        rw [isPrefixOf_cons_head_ne p' _ k c
          (fun hh => h c (List.mem_cons_self c rest) hh.symm)] at hpre
        exact Bool.false_ne_true hpre)]
      rw [ih f (fun x hx => h x (List.mem_cons_of_mem c hx)) (by
        simp only [List.length_cons] at hf
        omega)]

theorem stringMkData (s : String) : String.mk s.data = s := by
  cases s
  rfl

theorem pyEndsWith_append_self (s p : String) : pyEndsWith (s ++ p) p = true := by
  unfold pyEndsWith
  rw [String.data_append, List.reverse_append]
  exact List.isPrefixOf_iff_prefix.mpr (List.prefix_append _ _)

theorem dropSuffixStr_append (s p : String) : dropSuffixStr (s ++ p) p = s := by
  unfold dropSuffixStr
  rw [String.data_append, List.length_append, Nat.add_sub_cancel, List.take_left]

/-- A digit character is none of the unit letters. -/
theorem digit_ne_unit (c : Char) (h : c.isDigit = true) : c ≠ 'k' ∧ c ≠ 'm' ∧ c ≠ 's' := by
  refine ⟨?_, ?_, ?_⟩ <;> intro he <;> subst he <;> exact absurd h (by decide)

/-! ## Behaviour of `convert_duration` on well-formed duration strings -/

theorem pyEndsWith_km_of_digits (s : String) (h : ∀ c ∈ s.data, c.isDigit = true) :
    pyEndsWith (s ++ "m") "km" = false := by
  show (('m' :: ['k']) : List Char).isPrefixOf (s ++ "m").data.reverse = false
  rw [String.data_append, List.reverse_append]
  show (('m' :: ['k']) : List Char).isPrefixOf ('m' :: s.data.reverse) = false
  simp only [List.isPrefixOf, beq_self_eq_true, Bool.true_and]
  exact isPrefixOf_head_not_mem [] 'k' s.data.reverse
    (fun c hc => (digit_ne_unit c (h c (List.mem_reverse.mp hc))).1)

theorem pyEndsWith_ne_last (s : String) (a b : Char) (p : String)
    (hp : p.data.reverse = a :: (p.data.reverse.drop 1)) (hne : a ≠ b) :
    pyEndsWith (s ++ String.mk [b]) p = false := by
  show p.data.reverse.isPrefixOf (s ++ String.mk [b]).data.reverse = false
  rw [String.data_append, List.reverse_append, hp]
  exact isPrefixOf_cons_head_ne _ _ a b hne

theorem pyEndsWith_bare_of_digits (s : String) (h : ∀ c ∈ s.data, c.isDigit = true)
    (k : Char) (p : List Char) (hk : k ≠ 'k' → k = 'm' ∨ k = 's') :
    (k :: p).isPrefixOf s.data.reverse = false := by
  refine isPrefixOf_head_not_mem p k s.data.reverse (fun c hc => ?_)
  have hd := digit_ne_unit c (h c (List.mem_reverse.mp hc))
  by_cases hkk : k = 'k'
  · subst hkk; exact hd.1
  · rcases hk hkk with rfl | rfl
    · exact hd.2.1
    · exact hd.2.2

theorem convert_duration_km_eq (s : String) (h : ∀ c ∈ s.data, c.isDigit = true) :
    convert_duration (s ++ "km") = (pyFloatParse s).map (fun q => JVal.float (q * 1000)) := by
  have hcont : strContains (s ++ "km") "km" = true := by
    show containsAux (s ++ "km").data ['k', 'm'] = true
    rw [String.data_append]
    exact containsAux_append_self s.data ['k', 'm']
  have hrep : strReplace (s ++ "km") "km" "" = s := by
    show String.mk (replaceFuel ('k' :: ['m']) [] (s ++ "km").data.length (s ++ "km").data) = s
    rw [String.data_append]
    rw [replaceFuel_strip ['m'] 'k' s.data _ (fun c hc => (digit_ne_unit c (h c hc)).1) (le_refl _)]
  unfold convert_duration
  rw [hcont, hrep]
  simp

theorem convert_duration_min_eq (s : String) (h : ∀ c ∈ s.data, c.isDigit = true) :
    convert_duration (s ++ "m") = (pyIntParse s).map (fun n => JVal.int (n * 60)) := by
  have hnotk : ∀ c ∈ (s ++ "m").data, c ≠ 'k' := by
    rw [String.data_append]
    intro c hc
    rcases List.mem_append.mp hc with h1 | h1
    · exact (digit_ne_unit c (h c h1)).1
    · rw [List.mem_singleton.mp h1]; decide
  have hcont1 : strContains (s ++ "m") "km" = false := by
    show containsAux (s ++ "m").data ('k' :: ['m']) = false
    exact containsAux_head_not_mem _ 'k' ['m'] hnotk
  have hcont2 : strContains (s ++ "m") "m" = true := by
    show containsAux (s ++ "m").data ['m'] = true
    rw [String.data_append]
    exact containsAux_append_self s.data ['m']
  have hends : pyEndsWith (s ++ "m") "km" = false := pyEndsWith_km_of_digits s h
  have hrep : strReplace (s ++ "m") "m" "" = s := by
    show String.mk (replaceFuel ('m' :: []) [] (s ++ "m").data.length (s ++ "m").data) = s
    rw [String.data_append]
    rw [replaceFuel_strip [] 'm' s.data _ (fun c hc => (digit_ne_unit c (h c hc)).2.1) (le_refl _)]
  unfold convert_duration
  rw [hcont1, hcont2, hends, hrep]
  simp

theorem convert_duration_sec_eq (s : String) (h : ∀ c ∈ s.data, c.isDigit = true) :
    convert_duration (s ++ "s") = (pyIntParse s).map (fun n => JVal.int n) := by
  have hnotk : ∀ c ∈ (s ++ "s").data, c ≠ 'k' := by
    rw [String.data_append]
    intro c hc
    rcases List.mem_append.mp hc with h1 | h1
    · exact (digit_ne_unit c (h c h1)).1
    · rw [List.mem_singleton.mp h1]; decide
  have hnotm : ∀ c ∈ (s ++ "s").data, c ≠ 'm' := by
    rw [String.data_append]
    intro c hc
    rcases List.mem_append.mp hc with h1 | h1
    · exact (digit_ne_unit c (h c h1)).2.1
    · rw [List.mem_singleton.mp h1]; decide
  have hcont1 : strContains (s ++ "s") "km" = false := by
    show containsAux (s ++ "s").data ('k' :: ['m']) = false
    exact containsAux_head_not_mem _ 'k' ['m'] hnotk
  have hcont2 : strContains (s ++ "s") "m" = false := by
    show containsAux (s ++ "s").data ('m' :: []) = false
    exact containsAux_head_not_mem _ 'm' [] hnotm
  have hcont3 : strContains (s ++ "s") "s" = true := by
    show containsAux (s ++ "s").data ['s'] = true
    rw [String.data_append]
    exact containsAux_append_self s.data ['s']
  have hrep : strReplace (s ++ "s") "s" "" = s := by
    show String.mk (replaceFuel ('s' :: []) [] (s ++ "s").data.length (s ++ "s").data) = s
    rw [String.data_append]
    rw [replaceFuel_strip [] 's' s.data _ (fun c hc => (digit_ne_unit c (h c hc)).2.2) (le_refl _)]
  unfold convert_duration
  rw [hcont1, hcont2, hcont3, hrep]
  simp

theorem convert_duration_bare_eq (s : String) (h : ∀ c ∈ s.data, c.isDigit = true) :
    convert_duration s = (pyIntParse s).map (fun n => JVal.int n) := by
  have hnot : ∀ k p, (k = 'k' ∨ k = 'm' ∨ k = 's') → containsAux s.data (k :: p) = false := by
    intro k p hk
    refine containsAux_head_not_mem _ k p (fun c hc => ?_)
    have hd := digit_ne_unit c (h c hc)
    rcases hk with rfl | rfl | rfl
    · exact hd.1
    · exact hd.2.1
    · exact hd.2.2
  have hcont1 : strContains s "km" = false := hnot 'k' ['m'] (Or.inl rfl)
  have hcont2 : strContains s "m" = false := hnot 'm' [] (Or.inr (Or.inl rfl))
  have hcont3 : strContains s "s" = false := hnot 's' [] (Or.inr (Or.inr rfl))
  unfold convert_duration
  rw [hcont1, hcont2, hcont3]
  simp

theorem convert_duration_spec_km_eq (s : String) :
    convert_duration_spec (s ++ "km") = (pyFloatParse s).map (fun q => JVal.float (q * 1000)) := by
  unfold convert_duration_spec
  rw [pyEndsWith_append_self s "km", dropSuffixStr_append s "km"]
  simp

theorem convert_duration_spec_min_eq (s : String) (h : ∀ c ∈ s.data, c.isDigit = true) :
    convert_duration_spec (s ++ "m") = (pyIntParse s).map (fun n => JVal.int (n * 60)) := by
  unfold convert_duration_spec
  rw [pyEndsWith_km_of_digits s h, pyEndsWith_append_self s "m", dropSuffixStr_append s "m"]
  simp

theorem convert_duration_spec_sec_eq (s : String) :
    convert_duration_spec (s ++ "s") = (pyIntParse s).map (fun n => JVal.int n) := by
  unfold convert_duration_spec
  rw [pyEndsWith_ne_last s 'm' 's' "km" rfl (by decide),
      pyEndsWith_ne_last s 'm' 's' "m" rfl (by decide),
      pyEndsWith_append_self s "s", dropSuffixStr_append s "s"]
  simp

theorem convert_duration_spec_bare_eq (s : String) (h : ∀ c ∈ s.data, c.isDigit = true) :
    convert_duration_spec s = (pyIntParse s).map (fun n => JVal.int n) := by
  have h1 : pyEndsWith s "km" = false :=
    pyEndsWith_bare_of_digits s h 'm' ['k'] (by intro hh; exact Or.inl rfl)
  have h2 : pyEndsWith s "m" = false :=
    pyEndsWith_bare_of_digits s h 'm' [] (by intro hh; exact Or.inl rfl)
  have h3 : pyEndsWith s "s" = false :=
    pyEndsWith_bare_of_digits s h 's' [] (by intro hh; exact Or.inr rfl)
  unfold convert_duration_spec
  rw [h1, h2, h3]
  simp

/-! ## Claim C1 -/

/-- C1, counterexample: the claim's trailing-suffix rule fails on the code.
On `"2m5"` the claim's rule has no trailing suffix, so the value should
"parse as a bare integer of seconds" (a ValueError, since `"2m5"` is not an
integer literal); the code instead takes the minutes branch, because its
test is substring containment (`"m" in duration`), and returns
`int("25") * 60 = 1500`. -/
theorem c1_counterexample :
    convert_duration "2m5" = .ok (.int 1500) ∧
    convert_duration_spec "2m5" = .error .valueError := ⟨rfl, rfl⟩

/-- C1, amended: `convert_duration` follows the spec's suffix rules on every
well-formed duration string — a digit run followed by one of the `km`, `m`,
`s` suffixes or bare — and the five listed values hold
(`"15m"` → 900, `"3m"` → 180, `"30s"` → 30, `"1km"` → 1000.0, `"45"` → 45);
on other strings the code's substring-containment tests can diverge from the
trailing-suffix reading (see `c1_counterexample`). -/
theorem c1_convert_duration :
    (∀ s : String, (∀ c ∈ s.data, c.isDigit = true) →
      convert_duration (s ++ "km") = convert_duration_spec (s ++ "km") ∧
      convert_duration (s ++ "m") = convert_duration_spec (s ++ "m") ∧
      convert_duration (s ++ "s") = convert_duration_spec (s ++ "s") ∧
      convert_duration s = convert_duration_spec s) ∧
    convert_duration "15m" = .ok (.int 900) ∧
    convert_duration "3m" = .ok (.int 180) ∧
    convert_duration "30s" = .ok (.int 30) ∧
    convert_duration "1km" = .ok (.float 1000) ∧
    convert_duration "45" = .ok (.int 45) := by
  refine ⟨fun s h => ⟨?_, ?_, ?_, ?_⟩, rfl, rfl, rfl, ?_, rfl⟩
  · rw [convert_duration_km_eq s h, convert_duration_spec_km_eq s]
  · rw [convert_duration_min_eq s h, convert_duration_spec_min_eq s h]
  · rw [convert_duration_sec_eq s h, convert_duration_spec_sec_eq s]
  · rw [convert_duration_bare_eq s h, convert_duration_spec_bare_eq s h]
  · have h := convert_duration_km_eq "1" (by decide)
    rw [show (("1" : String) ++ "km") = "1km" from rfl] at h
    rw [h]
    show Except.ok (JVal.float ((1 : Rat) * ((1 : Nat) : Rat) * 1000)) = Except.ok (JVal.float 1000)
    norm_num

/-- C1, witness: the amended theorem applied at the digit string `"15"`. -/
theorem c1_witness :
    (∀ c ∈ ("15" : String).data, c.isDigit = true) ∧
    convert_duration ("15" ++ "m") = convert_duration_spec ("15" ++ "m") :=
  ⟨by decide, (c1_convert_duration.1 "15" (by decide)).2.1⟩

/-! ## Claim C6 -/

/-- C7: for every name string, the payload `post_events` sends carries
`type = "Ride"` if the name contains "Bike", else `"Run"` if it contains
"Run", else `"Swim"`, and `target = "POWER"` if it contains "Power", else
`"PACE"` if it contains "pace", else `"HR"` if it contains "hr", else
`"AUTO"`; in particular `name = "Bike - VO2 Max"` yields `type = "Ride"`
and `name = "Run - pace work"` yields `type = "Run"` and
`target = "PACE"`. -/
theorem c7_type_target_inference :
    (∀ nm : String,
      (post_events ⟨"k", ""⟩ gwNull 739312 (some "ath") none (some "2025-01-14") (some nm)
          (some twoStepData)).requests.map
        (fun r => r.body.map (fun b => (pyGet b "type", pyGet b "target"))) =
      [some (.str (if strContains nm "Bike" then "Ride"
                   else if strContains nm "Run" then "Run" else "Swim"),
             .str (if strContains nm "Power" then "POWER"
                   else if strContains nm "pace" then "PACE"
                   else if strContains nm "hr" then "HR" else "AUTO"))]) ∧
    inferType "Bike - VO2 Max" = "Ride" ∧
    inferType "Run - pace work" = "Run" ∧
    inferTarget "Run - pace work" = "PACE" := by
  refine ⟨fun nm => rfl, rfl, rfl, rfl⟩

/-! ## Claim C2 -/

/-- C2 fails on the code: `post_events` with credentials supplied but
`data` omitted (its default `None`) raises TypeError at `data["steps"]`,
and `get_activities` with `include_unnamed=false` and a malformed
`start_date` raises ValueError at `datetime.fromisoformat(start_date)` when
the supplementary-fetch path is reached; neither handler has a try/except,
so the exceptions propagate to the caller instead of being returned as
descriptive text. -/
theorem c2_exceptions_propagate :
    (∀ gw : Request → JVal,
      (post_events ⟨"k", ""⟩ gw 739312 (some "ath") none (some "2025-01-14") (some "Run")
          none).outcome = .error .typeError) ∧
    (get_activities_core ⟨"k", "ath"⟩ gwOneAct 739312 none none (some "not-a-date") none 10
        false).outcome = .error .valueError :=
  ⟨fun _gw => rfl, rfl⟩

/-! ## Claim C5 -/

/-- C5, counterexample: the claim quantifies over every tool invocation with
both API-key sources empty, but when the athlete ID is also missing the
athlete check runs first, so the returned text is the athlete error, which
does not begin with "Error: No api_key provided". -/
theorem c5_counterexample :
    (get_activities_core ⟨"", ""⟩ gwNull 0 none none none none 10 false).outcome =
      .ok (.inl noAthleteMsg) ∧
    (get_activities_core ⟨"", ""⟩ gwNull 0 none none none none 10 false).requests = [] ∧
    strStartsWith noAthleteMsg "Error: No api_key provided" = false :=
  ⟨rfl, rfl, by decide⟩

/-- C5, amended: whenever both the explicit `api_key` argument and the
process-wide default are absent/empty — and, for the four tools that take an
athlete ID, the athlete ID resolves to a nonempty value (its check runs
first) — every tool returns the literal text beginning
"Error: No api_key provided" and issues no gateway request. -/
theorem c5_missing_api_key (settings : Settings) (gw : Request → JVal) (today : Nat)
    (aid key sd ed nm : Option String) (d : Option JVal) (eid actid : String)
    (limit : Int) (iu : Bool)
    (hAPI : settings.API_KEY = "")
    (hk : key = none ∨ key = some "")
    (hA : resolveCred aid settings.ATHLETE_ID ≠ "") :
    (get_activities_core settings gw today aid key sd ed limit iu).outcome =
      .ok (.inl noApiKeyMsg) ∧
    (get_activities_core settings gw today aid key sd ed limit iu).requests = [] ∧
    (get_events settings gw today aid key sd ed).outcome = .ok noApiKeyMsg ∧
    (get_events settings gw today aid key sd ed).requests = [] ∧
    (get_event_by_id settings gw eid aid key).outcome = .ok noApiKeyMsg ∧
    (get_event_by_id settings gw eid aid key).requests = [] ∧
    (post_events settings gw today aid key sd nm d).outcome = .ok (.inl noApiKeyMsg) ∧
    (post_events settings gw today aid key sd nm d).requests = [] ∧
    (get_activity_details settings gw actid key).outcome = .ok noApiKeyMsg ∧
    (get_activity_details settings gw actid key).requests = [] ∧
    (get_activity_intervals settings gw actid key).outcome = .ok noApiKeyMsg ∧
    (get_activity_intervals settings gw actid key).requests = [] ∧
    strStartsWith noApiKeyMsg "Error: No api_key provided" = true := by
  have hkey : resolveCred key settings.API_KEY = "" := by
    rcases hk with rfl | rfl
    · simpa [resolveCred] using hAPI
    · simp [resolveCred]
  refine ⟨?_, ?_, ?_, ?_, ?_, ?_, ?_, ?_, ?_, ?_, ?_, ?_, by decide⟩ <;>
    simp [get_activities_core, get_events, get_event_by_id, post_events,
      get_activity_details, get_activity_intervals, hkey, hA]

/-- C5, witness: the amended theorem applied with an explicit athlete ID,
an omitted api_key and empty defaults. -/
theorem c5_witness :
    (("" : String) = "" ∧ resolveCred (some "ath") "" ≠ "") ∧
    (get_activities_core ⟨"", ""⟩ gwNull 0 (some "ath") none none none 10 false).outcome =
      .ok (.inl noApiKeyMsg) :=
  ⟨⟨rfl, by decide⟩,
   (c5_missing_api_key ⟨"", ""⟩ gwNull 0 (some "ath") none none none none none "e" "a" 10 false
      rfl (Or.inl rfl) (by decide)).1⟩

/-! ## Claim C10 -/

/-- C10: in every tool taking credentials, an explicitly supplied
empty-string credential returns the missing-credential error even when a
nonempty process-wide default is configured — the default is consulted only
for an omitted (`None`) argument, so an explicit empty value masks it; no
gateway request is attempted.  The athlete-ID scenario covers the four
tools taking an athlete ID; the api-key scenario covers all six tools
(`get_activity_details` and `get_activity_intervals` take only an API
key). -/
theorem c10_empty_masks_default (settings : Settings) (gw : Request → JVal) (today : Nat)
    (sd ed nm : Option String) (d : Option JVal) (eid actid : String)
    (limit : Int) (iu : Bool)
    (hA : settings.ATHLETE_ID ≠ "") (_hK : settings.API_KEY ≠ "") :
    (get_activities_core settings gw today (some "") none sd ed limit iu).outcome =
      .ok (.inl noAthleteMsg) ∧
    (get_activities_core settings gw today (some "") none sd ed limit iu).requests = [] ∧
    (get_activities_core settings gw today none (some "") sd ed limit iu).outcome =
      .ok (.inl noApiKeyMsg) ∧
    (get_activities_core settings gw today none (some "") sd ed limit iu).requests = [] ∧
    (post_events settings gw today (some "") none sd nm d).outcome = .ok (.inl noAthleteMsg) ∧
    (post_events settings gw today (some "") none sd nm d).requests = [] ∧
    (post_events settings gw today none (some "") sd nm d).outcome = .ok (.inl noApiKeyMsg) ∧
    (post_events settings gw today none (some "") sd nm d).requests = [] ∧
    (get_events settings gw today (some "") none sd ed).outcome = .ok noAthleteMsg ∧
    (get_events settings gw today (some "") none sd ed).requests = [] ∧
    (get_events settings gw today none (some "") sd ed).outcome = .ok noApiKeyMsg ∧
    (get_events settings gw today none (some "") sd ed).requests = [] ∧
    (get_event_by_id settings gw eid (some "") none).outcome = .ok noAthleteMsg ∧
    (get_event_by_id settings gw eid (some "") none).requests = [] ∧
    (get_event_by_id settings gw eid none (some "")).outcome = .ok noApiKeyMsg ∧
    (get_event_by_id settings gw eid none (some "")).requests = [] ∧
    (get_activity_details settings gw actid (some "")).outcome = .ok noApiKeyMsg ∧
    (get_activity_details settings gw actid (some "")).requests = [] ∧
    (get_activity_intervals settings gw actid (some "")).outcome = .ok noApiKeyMsg ∧
    (get_activity_intervals settings gw actid (some "")).requests = [] := by
  refine ⟨?_, ?_, ?_, ?_, ?_, ?_, ?_, ?_, ?_, ?_, ?_, ?_, ?_, ?_, ?_, ?_, ?_, ?_, ?_, ?_⟩ <;>
    simp [get_activities_core, post_events, get_events, get_event_by_id,
      get_activity_details, get_activity_intervals, resolveCred, hA]

/-- C10, witness: the theorem applied with nonempty defaults and an explicit
empty api_key. -/
theorem c10_witness :
    (("ath" : String) ≠ "" ∧ ("k" : String) ≠ "") ∧
    (get_activities_core ⟨"k", "ath"⟩ gwNull 0 none (some "") none none 10 false).outcome =
      .ok (.inl noApiKeyMsg) ∧
    (get_activity_details ⟨"k", "ath"⟩ gwNull "a" (some "")).outcome = .ok noApiKeyMsg :=
  ⟨⟨by decide, by decide⟩,
   (c10_empty_masks_default ⟨"k", "ath"⟩ gwNull 0 none none none none "e" "a" 10 false
      (by decide) (by decide)).2.2.1,
   (c10_empty_masks_default ⟨"k", "ath"⟩ gwNull 0 none none none none "e" "a" 10 false
      (by decide) (by decide)).2.2.2.2.2.2.2.2.2.2.2.2.2.2.2.2.1⟩

/-! ## Claim C4 -/

/-- C4, counterexample: a single activity mapping that itself contains a
list-typed value is not normalized to the one-element list holding it — the
first-list scan fires first and extracts the inner list's dict elements
instead (here the two lap dicts), so the claimed three-way equivalence fails
on the single-mapping presentation. -/
theorem c4_counterexample :
    normalizeActivities c4Single = [.obj [("w", .int 1)], .obj [("w", .int 2)]] ∧
    normalizeActivities c4Single ≠ [c4Single] := by
  refine ⟨rfl, fun h => ?_⟩
  have h2 := congrArg List.length h
  exact absurd h2 (by decide)

/-- C4, amended: for every nonempty collection of activity mappings, the
normalization step yields the same flattened list whether the payload is the
bare list, a mapping whose first list-typed value is that list, or — for a
single activity mapping having a `name`, `startTime` or `distance` key and
*no list-typed value of its own* — that single mapping itself; a mapping
with a list-typed value instead has that first inner list extracted (see
`c4_counterexample`). -/
theorem c4_normalization_equivalence (acts : List JVal)
    (hobj : ∀ a ∈ acts, a.isObj = true) (hne : acts ≠ []) :
    normalizeActivities (.arr acts) = acts ∧
    (∀ kvs, firstArr kvs = some acts → normalizeActivities (.obj kvs) = acts) ∧
    (∀ kvs, acts = [.obj kvs] → firstArr kvs = none →
      ["name", "startTime", "distance"].any (fun k => objHasKey kvs k) = true →
      normalizeActivities (.obj kvs) = acts) := by
  have hfilter : acts.filter JVal.isObj = acts := List.filter_eq_self.mpr hobj
  refine ⟨?_, ?_, ?_⟩
  · show acts.filter JVal.isObj = acts
    exact hfilter
  · intro kvs hfa
    show normalizeActivities (.obj kvs) = acts
    simp only [normalizeActivities, hfa, hfilter]
    rw [if_neg (by simp [List.isEmpty_iff, hne])]
  · intro kvs hacts hfa hkey
    simp only [normalizeActivities, hfa, hkey]
    simp [hacts]

/-- C4, witness: the amended theorem applied to a one-element collection
presented all three ways. -/
theorem c4_witness :
    ((∀ a ∈ [JVal.obj [("name", .str "A")]], a.isObj = true) ∧
      [JVal.obj [("name", .str "A")]] ≠ []) ∧
    normalizeActivities (.arr [JVal.obj [("name", .str "A")]]) = [JVal.obj [("name", .str "A")]] ∧
    normalizeActivities (.obj [("data", .arr [JVal.obj [("name", .str "A")]])]) =
      [JVal.obj [("name", .str "A")]] ∧
    normalizeActivities (.obj [("name", .str "A")]) = [JVal.obj [("name", .str "A")]] := by
  have h := c4_normalization_equivalence [JVal.obj [("name", .str "A")]]
    (by intro a ha; simp at ha; rw [ha]; rfl) (by simp)
  exact ⟨⟨by intro a ha; simp at ha; rw [ha]; rfl, by simp⟩,
    h.1, h.2.1 _ rfl, h.2.2 _ rfl rfl rfl⟩

/-! ## Claim C9 -/

theorem zoneLines_all_obj (l : List JVal) (h : ∀ z ∈ l, z.isObj = true) :
    zoneLines l = .ok (strJoin (l.map zoneLineText)) := by
  induction l with
  | nil => rfl
  | cons z rest ih =>
    have hz := h z (List.mem_cons_self z rest)
    have ih' := ih fun x hx => h x (List.mem_cons_of_mem z hx)
    cases z <;> simp [JVal.isObj] at hz
    simp only [zoneLines, ih', List.map_cons, strJoin]
    rfl

theorem renderZones_ok (zf : List (String × JVal)) (pl hl : List JVal)
    (hp : pyGetD (.obj zf) "power" (.arr []) = .arr pl)
    (hh : pyGetD (.obj zf) "hr" (.arr []) = .arr hl)
    (hpo : ∀ z ∈ pl, z.isObj = true) (hho : ∀ z ∈ hl, z.isObj = true) :
    renderZones (.obj zf) =
      .ok ("\nPower Zones:\n" ++ strJoin (pl.map zoneLineText) ++
           "\nHeart Rate Zones:\n" ++ strJoin (hl.map zoneLineText)) := by
  simp only [renderZones, hp, hh, pyIterate]
  rw [zoneLines_all_obj pl hpo, zoneLines_all_obj hl hho]
  rfl

/-- C9, counterexample: a present but wrong-typed `zones` field (here the
number 5) makes `get_activity_details` raise AttributeError at
`zones.get("power", [])` instead of degrading, so the handler does throw on
a wrong-typed optional field. -/
theorem c9_counterexample :
    (get_activity_details ⟨"k", ""⟩ gwZonesBad "7" none).outcome =
      .error .attributeError := rfl

/-- C9, amended: `get_activity_details` never throws when `zones` is absent
(the zone listings are omitted) or when `zones` is a mapping whose `power`
and `hr` entries, where present, are lists of mappings — the power and
heart-rate seconds-in-zone lines are then rendered in source order; a
`zones` value that is not a mapping (or whose entries are not lists of
mappings) instead raises (see `c9_counterexample`). -/
theorem c9_zones_rendering (settings : Settings) (gw : Request → JVal)
    (id : String) (key : Option String) (fields : List (String × JVal))
    (hkey : resolveCred key settings.API_KEY ≠ "")
    (hgw : gw (activityDetailsRequest id) = .obj fields)
    (herr : isErrorDict (.obj fields) = false)
    (htr : pyTruthy (.obj fields) = true) :
    (objLookup fields "zones" = none →
      get_activity_details settings gw id key =
        ⟨[activityDetailsRequest id], .ok (format_activity_summary (.obj fields))⟩) ∧
    (∀ zf pl hl, objLookup fields "zones" = some (.obj zf) →
      pyGetD (.obj zf) "power" (.arr []) = .arr pl →
      pyGetD (.obj zf) "hr" (.arr []) = .arr hl →
      (∀ z ∈ pl, z.isObj = true) → (∀ z ∈ hl, z.isObj = true) →
      get_activity_details settings gw id key =
        ⟨[activityDetailsRequest id],
         .ok (format_activity_summary (.obj fields) ++
              "\nPower Zones:\n" ++ strJoin (pl.map zoneLineText) ++
              "\nHeart Rate Zones:\n" ++ strJoin (hl.map zoneLineText))⟩) := by
  constructor
  · intro hz
    simp [get_activity_details, hkey, hgw, herr, htr, hz]
  · intro zf pl hl hz hp hh hpo hho
    simp [get_activity_details, hkey, hgw, herr, htr, hz,
      renderZones_ok zf pl hl hp hh hpo hho]
    simp [String.append_assoc]

/-- C9, witness: the amended theorem applied to a concrete activity with
well-formed power and heart-rate zones. -/
theorem c9_witness :
    (resolveCred none ("k" : String) ≠ "" ∧
      gwZonesGood (activityDetailsRequest "7") =
        .obj [("name", .str "A"),
          ("zones", .obj [("power", .arr [.obj [("number", .int 1), ("secondsInZone", .int 120)]]),
                          ("hr", .arr [.obj [("number", .int 2), ("secondsInZone", .int 60)]])])]) ∧
    get_activity_details ⟨"k", ""⟩ gwZonesGood "7" none =
      ⟨[activityDetailsRequest "7"],
       .ok (format_activity_summary (.obj [("name", .str "A"),
              ("zones", .obj [("power", .arr [.obj [("number", .int 1), ("secondsInZone", .int 120)]]),
                              ("hr", .arr [.obj [("number", .int 2), ("secondsInZone", .int 60)]])])]) ++
            "\nPower Zones:\n" ++
            strJoin ([JVal.obj [("number", .int 1), ("secondsInZone", .int 120)]].map zoneLineText) ++
            "\nHeart Rate Zones:\n" ++
            strJoin ([JVal.obj [("number", .int 2), ("secondsInZone", .int 60)]].map zoneLineText))⟩ := by
  refine ⟨⟨by decide, rfl⟩, ?_⟩
  exact (c9_zones_rendering ⟨"k", ""⟩ gwZonesGood "7" none _ (by decide) rfl rfl rfl).2
    _ _ _ rfl rfl rfl (by intro z hz; simp at hz; rw [hz]; rfl)
    (by intro z hz; simp at hz; rw [hz]; rfl)

/-! ## Claim C3 -/

theorem mem_pySliceTo {α : Type} {a : α} {xs : List α} {n : Int}
    (h : a ∈ pySliceTo xs n) : a ∈ xs := by
  unfold pySliceTo at h
  split at h <;> exact List.take_subset _ _ h

theorem finishOutcome_inr_mem (iu : Bool) (ath : String) (lim : Int) (acts l : List JVal)
    (h : finishOutcome iu ath lim acts = .inr l) : ∀ a ∈ l, a ∈ acts := by
  simp only [finishOutcome] at h
  split at h
  · exact absurd h (by simp)
  · intro a ha
    injection h with h'
    rw [← h'] at ha
    exact mem_pySliceTo ha

theorem named_mem_supp (m : JVal) (a : JVal) (ha : a ∈ supplementaryActivities m) :
    isNamedActivity a = true := by
  unfold supplementaryActivities at ha
  split at ha
  · have h2 := (List.mem_filter.mp ha).2
    simp only [Bool.and_eq_true] at h2
    exact h2.2
  · exact absurd ha (List.not_mem_nil a)

theorem named_mem_filter_append (A : List JVal) (m : JVal) (a : JVal)
    (ha : a ∈ namedFilter A ++ supplementaryActivities m) : isNamedActivity a = true := by
  rcases List.mem_append.mp ha with h1 | h1
  · exact (List.mem_filter.mp h1).2
  · exact named_mem_supp m a h1

set_option maxHeartbeats 1600000 in
/-- C3: whatever the gateway returns on either fetch and whatever the limit,
when `include_unnamed` is false every activity in the final list rendered by
`get_activities` has a truthy `name` that is not `"Unnamed"` — activities
with a missing, empty, or `"Unnamed"` name never appear, including among the
ones appended by the supplementary 60-day fetch. -/
theorem c3_no_unnamed (settings : Settings) (gw : Request → JVal) (today : Nat)
    (aid key sd ed : Option String) (limit : Int) (l : List JVal)
    (h : (get_activities_core settings gw today aid key sd ed limit false).outcome =
      .ok (.inr l)) :
    ∀ a ∈ l, pyTruthy (pyGet a "name") = true ∧ pyEqStr (pyGet a "name") "Unnamed" = false := by
  have main : ∀ a ∈ l, isNamedActivity a = true := by
    simp only [get_activities_core] at h
    repeat' split at h
    all_goals try simp at h
    all_goals
      first
        | exact absurd ‹(false : Bool) = true› (by decide)
        | exact fun a ha =>
            (List.mem_filter.mp (finishOutcome_inr_mem _ _ _ _ _ h a ha)).2
        | exact fun a ha =>
            named_mem_filter_append _ _ a (finishOutcome_inr_mem _ _ _ _ _ h a ha)
  intro a ha
  have hn := main a ha
  simp only [isNamedActivity, Bool.and_eq_true, Bool.not_eq_true'] at hn
  exact hn

set_option maxHeartbeats 1600000 in
/-- C3, witness: a run whose supplementary fetch appends a second named
activity; both elements of the final list satisfy the invariant. -/
theorem c3_witness :
    (get_activities_core ⟨"k", "ath"⟩ gwOneAct 739312 none none (some "2024-05-01") none 10
        false).outcome =
      .ok (.inr [.obj [("name", .str "Morning Ride")], .obj [("name", .str "Morning Ride")]]) ∧
    (pyTruthy (pyGet (.obj [("name", .str "Morning Ride")]) "name") = true ∧
      pyEqStr (pyGet (.obj [("name", .str "Morning Ride")]) "name") "Unnamed" = false) :=
  ⟨rfl,
   c3_no_unnamed ⟨"k", "ath"⟩ gwOneAct 739312 none none (some "2024-05-01") none 10
     [.obj [("name", .str "Morning Ride")], .obj [("name", .str "Morning Ride")]] rfl
     (.obj [("name", .str "Morning Ride")]) (by simp)⟩

/-! ## Claim C8 -/

set_option maxHeartbeats 1600000 in
/-- C8: with `include_unnamed = false`, whenever fewer than `limit` named
activities remain after filtering the primary fetch (and the start date is a
well-formed date, so the window ends the day before it), exactly one
supplementary fetch is issued — the request list is `[req1, req2]` with
`req2` covering `start − 60 days` through `start − 1 day` at the same api
limit — its result is filtered the same way and appended ahead of
truncation, and a non-list result (an error envelope in particular) appends
nothing while the overall outcome still finishes normally. -/
theorem c8_supplementary_fetch (settings : Settings) (gw : Request → JVal) (today : Nat)
    (aid key : Option String) (sd ed : String) (limit : Int) (d : Nat)
    (A : String) (req1 req2 : Request)
    (hA : A = resolveCred aid settings.ATHLETE_ID)
    (hAne : ¬ A = "")
    (hK : ¬ resolveCred key settings.API_KEY = "")
    (hsd : ¬ sd = "") (hed : ¬ ed = "")
    (hreq1 : req1 = activitiesRequest A sd ed (limit * 3))
    (hparse : parseIsoDate sd = some d)
    (hreq2 : req2 = activitiesRequest A (formatDate (d - 60)) (formatDate (d - 1)) (limit * 3))
    (hwin : pyStrLt (formatDate (d - 60)) (formatDate (d - 1)) = true)
    (herr : isErrorDict (gw req1) = false)
    (htr : pyTruthy (gw req1) = true)
    (hnn : (normalizeActivities (gw req1)).isEmpty = false)
    (hfew : ((namedFilter (normalizeActivities (gw req1))).length : Int) < limit) :
    get_activities_core settings gw today aid key (some sd) (some ed) limit false =
      ⟨[req1, req2],
       .ok (finishOutcome false A limit
         (namedFilter (normalizeActivities (gw req1)) ++ supplementaryActivities (gw req2)))⟩ ∧
    (JVal.isArr (gw req2) = false → supplementaryActivities (gw req2) = []) ∧
    (isErrorDict (gw req2) = true → supplementaryActivities (gw req2) = []) := by
  subst hA
  subst hreq1
  subst hreq2
  refine ⟨?_, ?_, ?_⟩
  · simp only [get_activities_core, resolveDate]
    rw [if_neg hAne, if_neg hK, if_neg hsd, if_neg hed]
    simp only [Bool.false_eq_true, if_false, herr, htr, hnn, hparse, hwin,
      Bool.not_true, if_pos hfew]
    rw [if_pos trivial]
  · intro hna
    cases hv : gw (activitiesRequest (resolveCred aid settings.ATHLETE_ID)
        (formatDate (d - 60)) (formatDate (d - 1)) (limit * 3)) <;>
      simp_all [supplementaryActivities, JVal.isArr]
  · intro he
    cases hv : gw (activitiesRequest (resolveCred aid settings.ATHLETE_ID)
        (formatDate (d - 60)) (formatDate (d - 1)) (limit * 3)) <;>
      simp_all [supplementaryActivities, isErrorDict]

set_option maxHeartbeats 1600000 in
/-- C8, witness: the theorem applied to a concrete run whose primary fetch
yields one named activity against a limit of 10; the supplementary window is
2024-03-02 through 2024-04-30 for a start date of 2024-05-01. -/
theorem c8_witness :
    (parseIsoDate "2024-05-01" = some 739312 ∧
      formatDate (739312 - 60) = "2024-03-02" ∧
      formatDate (739312 - 1) = "2024-04-30" ∧
      pyStrLt (formatDate (739312 - 60)) (formatDate (739312 - 1)) = true) ∧
    get_activities_core ⟨"k", "ath"⟩ gwOneAct 739312 none none (some "2024-05-01")
        (some "2024-05-01") 10 false =
      ⟨[activitiesRequest "ath" "2024-05-01" "2024-05-01" 30,
        activitiesRequest "ath" (formatDate (739312 - 60)) (formatDate (739312 - 1)) 30],
       .ok (finishOutcome false "ath" 10
         (namedFilter (normalizeActivities (gwOneAct
            (activitiesRequest "ath" "2024-05-01" "2024-05-01" 30))) ++
          supplementaryActivities (gwOneAct
            (activitiesRequest "ath" (formatDate (739312 - 60)) (formatDate (739312 - 1)) 30))))⟩ :=
  ⟨⟨rfl, rfl, rfl, rfl⟩,
   (c8_supplementary_fetch ⟨"k", "ath"⟩ gwOneAct 739312 none none "2024-05-01" "2024-05-01"
      10 739312 "ath" _ _ rfl (by decide) (by decide) (by decide) (by decide) rfl rfl rfl
      rfl rfl rfl (by decide) (by decide)).1⟩

end IntervalsMCP
